import Mathlib

/- Verification of the expo-sqlite resource cache adapter: a shallow embedding of the
SQLite-backed record store of the adapter (one `resources` table keyed by resource, scope
key, target and id) and of the operations the adapter exposes (store, batchStore,
update, batchUpdate, destroy, batchDestroy, refresh, getCache, sync), together with
theorems settling the specification claims about them. -/

namespace ResourceSqlite

/-- JSON-like document values as stored and transformed by the adapter. Objects keep
their fields in insertion order, as JavaScript objects do. The `date` constructor
stands for a JavaScript Date value (identified by its epoch timestamp), which only the
optional date-transform layer produces or consumes. -/
inductive J where
  | null : J
  | bool (b : Bool) : J
  | num (n : Int) : J
  | str (s : String) : J
  | date (t : Int) : J
  | obj (fields : List (String × J)) : J

/-- Field list of a JavaScript object. -/
abbrev Fields := List (String × J)

mutual

/-- Structural equality test on document values. -/
def J.beq : J → J → Bool
  | J.null, J.null => true
  | J.bool a, J.bool b => a == b
  | J.num a, J.num b => a == b
  | J.str a, J.str b => a == b
  | J.date a, J.date b => a == b
  | J.obj a, J.obj b => J.beqFields a b
  | _, _ => false

/-- Structural equality test on field lists. -/
def J.beqFields : Fields → Fields → Bool
  | [], [] => true
  | (k, v) :: r, (l, w) :: t => k == l && J.beq v w && J.beqFields r t
  | _, _ => false

end

mutual

theorem J.eq_of_beq : (a b : J) → J.beq a b = true → a = b
  | J.null, J.null, _ => rfl
  | J.null, J.bool _, h => nomatch h
  | J.null, J.num _, h => nomatch h
  | J.null, J.str _, h => nomatch h
  | J.null, J.date _, h => nomatch h
  | J.null, J.obj _, h => nomatch h
  | J.bool _, J.null, h => nomatch h
  | J.bool x, J.bool y, h => congrArg J.bool (beq_iff_eq.mp h)
  | J.bool _, J.num _, h => nomatch h
  | J.bool _, J.str _, h => nomatch h
  | J.bool _, J.date _, h => nomatch h
  | J.bool _, J.obj _, h => nomatch h
  | J.num _, J.null, h => nomatch h
  | J.num _, J.bool _, h => nomatch h
  | J.num x, J.num y, h => congrArg J.num (beq_iff_eq.mp h)
  | J.num _, J.str _, h => nomatch h
  | J.num _, J.date _, h => nomatch h
  | J.num _, J.obj _, h => nomatch h
  | J.str _, J.null, h => nomatch h
  | J.str _, J.bool _, h => nomatch h
  | J.str _, J.num _, h => nomatch h
  | J.str x, J.str y, h => congrArg J.str (beq_iff_eq.mp h)
  | J.str _, J.date _, h => nomatch h
  | J.str _, J.obj _, h => nomatch h
  | J.date _, J.null, h => nomatch h
  | J.date _, J.bool _, h => nomatch h
  | J.date _, J.num _, h => nomatch h
  | J.date _, J.str _, h => nomatch h
  | J.date x, J.date y, h => congrArg J.date (beq_iff_eq.mp h)
  | J.date _, J.obj _, h => nomatch h
  | J.obj _, J.null, h => nomatch h
  | J.obj _, J.bool _, h => nomatch h
  | J.obj _, J.num _, h => nomatch h
  | J.obj _, J.str _, h => nomatch h
  | J.obj _, J.date _, h => nomatch h
  | J.obj fs, J.obj gs, h => congrArg J.obj (J.eqFields_of_beq fs gs h)

theorem J.eqFields_of_beq : (a b : Fields) → J.beqFields a b = true → a = b
  | [], [], _ => rfl
  | [], _ :: _, h => nomatch h
  | _ :: _, [], h => nomatch h
  | (k, v) :: r, (l, w) :: t, h => by
      simp only [J.beqFields, Bool.and_eq_true, beq_iff_eq] at h
      obtain ⟨⟨h1, h2⟩, h3⟩ := h
      rw [h1, J.eq_of_beq v w h2, J.eqFields_of_beq r t h3]

end

mutual

theorem J.beq_refl : (a : J) → J.beq a a = true
  | J.null => rfl
  | J.bool x => by simp [J.beq]
  | J.num x => by simp [J.beq]
  | J.str x => by simp [J.beq]
  | J.date x => by simp [J.beq]
  | J.obj fs => J.beqFields_refl fs

theorem J.beqFields_refl : (fs : Fields) → J.beqFields fs fs = true
  | [] => rfl
  | (k, v) :: r => by simp [J.beqFields, J.beq_refl v, J.beqFields_refl r]

end

instance : DecidableEq J := fun a b =>
  if h : J.beq a b = true then isTrue (J.eq_of_beq a b h)
  else isFalse (fun he => h (he ▸ J.beq_refl a))

/-- First-match field lookup in an object field list. -/
def lookupField (s : String) : Fields → Option J
  | [] => none
  | (k, v) :: rest => if k = s then some v else lookupField s rest

/-- Remove a field (the RFC 7396 delete-on-null case). -/
def removeField (fs : Fields) (s : String) : Fields :=
  fs.filter (fun kv => !(decide (kv.1 = s)))

/-- Overwrite a field in place, or append it when absent. -/
def setField (fs : Fields) (s : String) (v : J) : Fields :=
  if fs.any (fun kv => decide (kv.1 = s)) then
    fs.map (fun kv => if kv.1 = s then (s, v) else kv)
  else fs ++ [(s, v)]

/-- Field lookup defaulting to JSON null; a missing key behaves like a non-object
target in RFC 7396, and JSON null is not an object either. -/
def getFieldD (fs : Fields) (s : String) : J :=
  (lookupField s fs).getD J.null

/-- Field list of an object; any non-object target acts as the empty object when an
object patch is applied to it (RFC 7396). -/
def objFields : J → Fields
  | J.obj fs => fs
  | _ => []

mutual

/-- RFC 7396 JSON merge patch: the semantics of the json_patch SQL function that
update applies to the payload of the local row. -/
def mergePatch : J → J → J
  | target, J.obj pfs => J.obj (mergePatchFields (objFields target) pfs)
  | _, p => p

/-- The RFC 7396 main loop: apply the patch fields left to right onto a target field
list; a null patch value deletes the field, any other value is merge-patched onto the
current value (with a missing field acting as a non-object target). -/
def mergePatchFields : Fields → Fields → Fields
  | tfs, [] => tfs
  | tfs, (s, pv) :: rest =>
      if pv = J.null then mergePatchFields (removeField tfs s) rest
      else mergePatchFields (setField tfs s (mergePatch (getFieldD tfs s) pv)) rest

end

/-- Decimal digits of a natural number, produced with a structural fuel argument so
that concrete values compute inside the kernel. -/
def natDigitsAux : Nat → Nat → List Char
  | 0, _ => []
  | fuel + 1, n =>
      if n < 10 then [Char.ofNat (48 + n)]
      else natDigitsAux fuel (n / 10) ++ [Char.ofNat (48 + n % 10)]

/-- Decimal rendering of a natural number (the digits JSON.stringify prints). -/
def natToString (n : Nat) : String :=
  String.mk (natDigitsAux (n + 1) n)

/-- Decimal rendering of an integer (the form JSON.stringify prints). -/
def intToString : Int → String
  | Int.ofNat n => natToString n
  | Int.negSucc n => String.mk ('-' :: natDigitsAux (n + 2) (n + 1))

mutual

/-- JSON.stringify restricted to the document values of the model; a Date stringifies
to its serialized string form. -/
def jsonStringify : J → String
  | J.null => "null"
  | J.bool true => "true"
  | J.bool false => "false"
  | J.num n => intToString n
  | J.str s => "\"" ++ s ++ "\""
  | J.date t => "\"" ++ intToString t ++ "\""
  | J.obj fs => "\x7b" ++ jsonStringifyFields fs ++ "\x7d"

/-- Comma-separated serialization of the fields of an object, in insertion order. -/
def jsonStringifyFields : Fields → String
  | [] => ""
  | [(k, v)] => "\"" ++ k ++ "\":" ++ jsonStringify v
  | (k, v) :: rest => "\"" ++ k ++ "\":" ++ jsonStringify v ++ "," ++ jsonStringifyFields rest

end

/-- Record identifiers are either numbers or strings in the resource-hook framework. -/
inductive RId where
  | num (n : Int) : RId
  | str (s : String) : RId
deriving DecidableEq

/-- JSON.stringify of an identifier: the id-column encoding used by every statement of
the adapter except the shadow-existence check inside batchDestroy. -/
def stringifyId : RId → String
  | RId.num n => intToString n
  | RId.str s => "\"" ++ s ++ "\""

/-- JavaScript toString coercion of an identifier, which batchDestroy alone uses for
its shadow-existence check; unlike stringifyId it drops the quotes of a string id. -/
def idToString : RId → String
  | RId.num n => intToString n
  | RId.str s => s

/-- Numeric value of a decimal digit string. -/
def natOfChars (cs : List Char) : Nat :=
  cs.foldl (fun acc c => acc * 10 + (c.toNat - 48)) 0

/-- JSON.parse of an id column value, recovering the identifier (used by getCache to
key its result map). -/
def parseId (s : String) : RId :=
  match s.data with
  | '"' :: rest => RId.str (String.mk rest.dropLast)
  | '-' :: rest => RId.num (-(natOfChars rest : Int))
  | cs => RId.num (natOfChars cs)

/-- Stored data columns are nullable; `none` is the SQL NULL that the shadow sentinel
row of store carries. -/
abbrev Data := Option J

/-- JSON.parse applied to a data column read back from the store: a JavaScript null
(SQL NULL) coerces to the string form of null and parses to JSON null. -/
def jsonParseData : Data → J
  | some d => d
  | none => J.null

mutual

/-- Modelled from the spec: the date serializer (inverseDateTransformer) of the
external transform-utility package, whose source is not part of this repository; per
the spec it losslessly converts date-typed fields of a document to a serializable
string form, recursively, and leaves every other value unchanged. -/
def inverseDateTransformer : J → J
  | J.date t => J.str ("date:" ++ intToString t)
  | J.obj fs => J.obj (inverseDateTransformerFields fs)
  | v => v

/-- Field-wise date serialization of an object. -/
def inverseDateTransformerFields : Fields → Fields
  | [] => []
  | (k, v) :: rest => (k, inverseDateTransformer v) :: inverseDateTransformerFields rest

end

mutual

/-- Modelled from the spec: the date deserializer (dateTransformer) of the external
transform-utility package, whose source is not part of this repository; it restores
the date-typed fields that inverseDateTransformer serialized. -/
def dateTransformer : J → J
  | J.str s =>
      match s.data with
      | 'd' :: 'a' :: 't' :: 'e' :: ':' :: '-' :: rest => J.date (-(natOfChars rest : Int))
      | 'd' :: 'a' :: 't' :: 'e' :: ':' :: rest => J.date (natOfChars rest)
      | _ => J.str s
  | J.obj fs => J.obj (dateTransformerFields fs)
  | v => v

/-- Field-wise date deserialization of an object. -/
def dateTransformerFields : Fields → Fields
  | [] => []
  | (k, v) :: rest => (k, dateTransformer v) :: dateTransformerFields rest

end

/-- The domain-direction transform the adapter builds from its configuration: when
transformDates is set, dateTransformer is layered on top of the caller-supplied
transformer; otherwise the caller-supplied transformer is used as is. -/
def adapterTransformer (transformDates : Bool) (baseTransformer : J → J) : J → J :=
  if transformDates then fun item => dateTransformer (baseTransformer item)
  else baseTransformer

/-- The storage-direction transform the adapter builds from its configuration. Note
the else branch: the source falls back to inverseDateTransformer, not to the
caller-supplied baseInverseTransformer. -/
def adapterInverseTransformer (transformDates : Bool) (baseInverseTransformer : J → J) : J → J :=
  if transformDates then fun item => inverseDateTransformer (baseInverseTransformer item)
  else inverseDateTransformer

instance {ε α : Type} [DecidableEq ε] [DecidableEq α] : DecidableEq (Except ε α) := fun a b =>
  match a, b with
  | Except.error e, Except.error f =>
      if h : e = f then isTrue (by rw [h]) else isFalse (fun he => h (by cases he; rfl))
  | Except.error _, Except.ok _ => isFalse (fun he => nomatch he)
  | Except.ok _, Except.error _ => isFalse (fun he => nomatch he)
  | Except.ok v, Except.ok w =>
      if h : v = w then isTrue (by rw [h]) else isFalse (fun he => h (by cases he; rfl))

/-- One row of the resources table; the primary key is (resource, key, target, id). -/
structure Row where
  resource : String
  key : String
  target : String
  id : String
  data : Data
deriving DecidableEq

/-- The resources table, in storage iteration order. -/
abbrev DB := List Row

/-- Whether a row matches a full primary key. -/
def Row.matchesPK (r : Row) (res k tgt i : String) : Bool :=
  r.resource == res && r.key == k && r.target == tgt && r.id == i

/-- getFirstAsync of a point SELECT on the full primary key. -/
def getFirstRow (db : DB) (res k tgt i : String) : Option Row :=
  db.find? (fun r => r.matchesPK res k tgt i)

/-- A plain INSERT: fails with a uniqueness-constraint error when a row with the same
primary key already exists, otherwise appends the row. -/
def insertRow (db : DB) (r : Row) : DB × Except String Unit :=
  if (getFirstRow db r.resource r.key r.target r.id).isSome then
    (db, Except.error "UNIQUE constraint failed: resources")
  else (db ++ [r], Except.ok ())

/-- The INSERT ... SELECT that copies the local row of an id into a remote (shadow)
row: selects the local row by primary key and inserts a remote row with the same
payload; selecting nothing inserts nothing. -/
def captureShadow (db : DB) (res k i : String) : DB × Except String Unit :=
  match getFirstRow db res k "local" i with
  | some r => insertRow db { resource := res, key := k, target := "remote", id := i, data := r.data }
  | none => (db, Except.ok ())

/-- The UPDATE ... SET data = json_patch(data, patch) applied to the local row of an
id: the payload of every row matching the primary key is merge-patched (SQL NULL stays
NULL, as json_patch of NULL is NULL); other rows are untouched. -/
def patchRow (res k i : String) (p : J) (r : Row) : Row :=
  if r.matchesPK res k "local" i then { r with data := r.data.map (fun d => mergePatch d p) }
  else r

/-- store: inserts the local row, and, when caching is enabled, also a remote row with
a NULL payload (the sentinel). Both inserts are plain INSERTs dispatched together; on
success the input record is returned unchanged. -/
def storeOp (res k : String) (cache : Bool) (IT : J → J) (db : DB) (id : RId) (d : J) :
    DB × Except String J :=
  let step1 := insertRow db { resource := res, key := k, target := "local", id := stringifyId id, data := some (IT d) }
  let step2 :=
    if cache then
      insertRow step1.1 { resource := res, key := k, target := "remote", id := stringifyId id, data := none }
    else (step1.1, Except.ok ())
  (step2.1, match step1.2, step2.2 with
    | Except.ok _, Except.ok _ => Except.ok d
    | Except.error e, _ => Except.error e
    | _, Except.error e => Except.error e)

/-- batchStore: store applied to each record (the concurrent sub-operations
linearized in list order); every sub-operation runs, and the earliest failure is the
one the caller observes. -/
def batchStore (res k : String) (cache : Bool) (IT : J → J) (db : DB) :
    List (RId × J) → DB × Except String Unit
  | [] => (db, Except.ok ())
  | item :: rest =>
      let r := storeOp res k cache IT db item.1 item.2
      let rest2 := batchStore res k cache IT r.1 rest
      (rest2.1, match r.2, rest2.2 with
        | Except.ok _, Except.ok _ => Except.ok ()
        | Except.error e, _ => Except.error e
        | _, Except.error e => Except.error e)

/-- update: when caching is enabled and no remote row exists for the id, first copy
the local row into a remote (shadow) row; then merge-patch the storage form of the
partial onto the payload of the local row, and return the domain form of the local payload
read back from the store (reading back a missing row faults, as the source
dereferences the row unconditionally). -/
def updateOp (res k : String) (cache : Bool) (T IT : J → J) (db : DB) (id : RId) (patch : J) :
    DB × Except String J :=
  let i := stringifyId id
  let step1 :=
    if cache && (getFirstRow db res k "remote" i).isNone then captureShadow db res k i
    else (db, Except.ok ())
  match step1.2 with
  | Except.error e => (step1.1, Except.error e)
  | Except.ok _ =>
      let db2 := step1.1.map (patchRow res k i (IT patch))
      match getFirstRow db2 res k "local" i with
      | some r => (db2, Except.ok (T (jsonParseData r.data)))
      | none => (db2, Except.error "TypeError: cannot read data of null")

/-- batchUpdate: update applied to each item (the concurrent sub-operations
linearized in list order), results collected in order; the earliest failure is the one
the caller observes. -/
def batchUpdate (res k : String) (cache : Bool) (T IT : J → J) (db : DB) :
    List (RId × J) → DB × Except String (List J)
  | [] => (db, Except.ok [])
  | item :: rest =>
      let r := updateOp res k cache T IT db item.1 item.2
      let rest2 := batchUpdate res k cache T IT r.1 rest
      (rest2.1, match r.2, rest2.2 with
        | Except.ok v, Except.ok l => Except.ok (v :: l)
        | Except.error e, _ => Except.error e
        | _, Except.error e => Except.error e)

/-- destroy: the same shadow-capture precondition as update, then DELETE of the local
row by primary key. -/
def destroyOp (res k : String) (cache : Bool) (db : DB) (id : RId) : DB × Except String Unit :=
  let i := stringifyId id
  let step1 :=
    if cache && (getFirstRow db res k "remote" i).isNone then captureShadow db res k i
    else (db, Except.ok ())
  match step1.2 with
  | Except.error e => (step1.1, Except.error e)
  | Except.ok _ => (step1.1.filter (fun r => !(r.matchesPK res k "local" i)), Except.ok ())

/-- One sub-operation of batchDestroy. It differs from destroy in one place: the
shadow-existence check encodes the id with toString instead of JSON.stringify, while
the capture INSERT and the DELETE still use the JSON.stringify encoding. -/
def batchDestroyOne (res k : String) (cache : Bool) (db : DB) (id : RId) :
    DB × Except String Unit :=
  let step1 :=
    if cache && (getFirstRow db res k "remote" (idToString id)).isNone then
      captureShadow db res k (stringifyId id)
    else (db, Except.ok ())
  match step1.2 with
  | Except.error e => (step1.1, Except.error e)
  | Except.ok _ =>
      (step1.1.filter (fun r => !(r.matchesPK res k "local" (stringifyId id))), Except.ok ())

/-- batchDestroy: the per-id sub-operation applied to each id (the concurrent
sub-operations linearized in list order); the earliest failure is the one the caller
observes. -/
def batchDestroy (res k : String) (cache : Bool) (db : DB) :
    List RId → DB × Except String Unit
  | [] => (db, Except.ok ())
  | id :: rest =>
      let r := batchDestroyOne res k cache db id
      let rest2 := batchDestroy res k cache r.1 rest
      (rest2.1, match r.2, rest2.2 with
        | Except.ok _, Except.ok _ => Except.ok ()
        | Except.error e, _ => Except.error e
        | _, Except.error e => Except.error e)

/-- refresh with an id. The SELECT projects only the data column; when a row comes
back, the source then reads the resource field off that projected row — which the
projection does not contain — and JSON.parse of that undefined value throws, so the
existing-row branch always faults. A missing row yields a null data result, not an
error. -/
def refreshOne (res k : String) (T : J → J) (db : DB) (id : RId) :
    DB × Except String (Option J) :=
  match getFirstRow db res k "local" (stringifyId id) with
  | some _ => (db, Except.error "SyntaxError: unexpected token in JSON")
  | none => (db, Except.ok none)

/-- refresh without an id: every local row of the scope, in storage iteration order,
with the domain transform applied to each payload. -/
def refreshAll (res k : String) (T : J → J) (db : DB) : DB × Except String (List J) :=
  (db, Except.ok (((db.filter (fun r => r.resource == res && r.key == k && r.target == "local")).map
    (fun r => T (jsonParseData r.data)))))

/-- One entry of the getCache result: the id, the local payload (initialized to null),
and the remote (shadow) payload, present only when a remote row exists for the id. -/
structure CacheEntry where
  id : RId
  localData : J
  remote : Option J
deriving DecidableEq

/-- Writing one row into its cache entry, the dynamic-key assignment of getCache (a
row of any other target would set a field of that other name on the JavaScript entry
object, which this entry view does not observe). -/
def applyRowToEntry (T : J → J) (e : CacheEntry) (r : Row) : CacheEntry :=
  if r.target = "local" then { e with localData := T (jsonParseData r.data) }
  else if r.target = "remote" then { e with remote := some (T (jsonParseData r.data)) }
  else e

/-- Folding one row into the id-keyed entry list of getCache: a known id updates its
entry in place, an unknown id appends a fresh entry (insertion order, like the Map of
the source). -/
def getCacheFold (T : J → J) (acc : List CacheEntry) (r : Row) : List CacheEntry :=
  let i := parseId r.id
  if acc.any (fun e => decide (e.id = i)) then
    acc.map (fun e => if e.id = i then applyRowToEntry T e r else e)
  else acc ++ [applyRowToEntry T { id := i, localData := J.null, remote := none } r]

/-- getCache: all rows of the scope (local and remote), transformed and grouped by
parsed record id. -/
def getCacheOp (res k : String) (T : J → J) (db : DB) : List CacheEntry :=
  (db.filter (fun r => r.resource == res && r.key == k)).foldl (getCacheFold T) []

/-- The placeholder list the source builds for the ids of sync. -/
def syncPlaceholders (n : Nat) : String :=
  String.intercalate "," (List.replicate n "?")

/-- The DELETE statement sync generates for n ids. -/
def syncSql (n : Nat) : String :=
  "DELETE FROM resources WHERE resource = ? AND key = ? AND target = \x27remote\x27 AND id IN ("
    ++ syncPlaceholders n ++ ")"

/-- sync: deletes the remote (shadow) rows of the given ids. With no ids the generated
statement contains an empty IN () list, which SQLite rejects as malformed before
executing anything, so the operation fails and the store is unchanged. -/
def syncOp (res k : String) (db : DB) (ids : List RId) : DB × Except String Unit :=
  if ids.isEmpty then (db, Except.error "near the empty IN list: malformed statement")
  else
    (db.filter (fun r =>
        !(r.resource == res && r.key == k && r.target == "remote"
          && decide (r.id ∈ ids.map stringifyId))),
      Except.ok ())

/-- The scope key: JSON.stringify of the params object, with the null-coalescing
fallback to the empty string when the params are undefined. -/
def encodeScope (params : Option J) : String :=
  match params with
  | some p => jsonStringify p
  | none => ""

section ListLemmas

variable {α : Type}

theorem filter_map_id_on (f : α → α) (p : α → Bool)
    (hp : ∀ x, p (f x) = p x) (hid : ∀ x, p x = true → f x = x) (l : List α) :
    (l.map f).filter p = l.filter p := by
  induction l with
  | nil => rfl
  | cons x xs ih =>
      simp only [List.map_cons, List.filter_cons, hp x]
      cases hx : p x
      · simpa using ih
      · simp [hid x hx, ih]

theorem find?_map_congr (f : α → α) (p : α → Bool) (hp : ∀ x, p (f x) = p x) (l : List α) :
    (l.map f).find? p = (l.find? p).map f := by
  rw [List.find?_map]
  have h : (p ∘ f) = p := funext hp
  rw [h]

theorem filter_filter_of_imp (p q : α → Bool) (h : ∀ x, p x = true → q x = true) (l : List α) :
    (l.filter q).filter p = l.filter p := by
  rw [List.filter_filter]
  apply List.filter_congr
  intro x _
  cases hx : p x
  · simp
  · simp [h x hx]

theorem find?_filter_of_imp (p q : α → Bool) (h : ∀ x, p x = true → q x = true) (l : List α) :
    (l.filter q).find? p = l.find? p := by
  induction l with
  | nil => rfl
  | cons x xs ih =>
      cases hq : q x
      · have hp : p x = false := by
          cases hp : p x
          · rfl
          · rw [h x hp] at hq; exact absurd hq (by simp)
        simp [List.filter_cons, hq, List.find?_cons, hp, ih]
      · cases hp : p x
        · simp [List.filter_cons, hq, List.find?_cons, hp, ih]
        · simp [List.filter_cons, hq, List.find?_cons, hp]

end ListLemmas

/-- The remote row captureShadow inserts for an id, carrying the copied payload. -/
def shadowRow (res k i : String) (d : Data) : Row :=
  { resource := res, key := k, target := "remote", id := i, data := d }

/-- A local row, as store writes it. -/
def localRowOf (res k i : String) (d : Data) : Row :=
  { resource := res, key := k, target := "local", id := i, data := d }

theorem matchesPK_eq_true {r : Row} {res k tgt i : String} :
    r.matchesPK res k tgt i = true ↔
      r.resource = res ∧ r.key = k ∧ r.target = tgt ∧ r.id = i := by
  simp [Row.matchesPK, and_assoc]

theorem matchesPK_local_eq_false_of_remote {r : Row} {res k i res2 k2 i2 : String}
    (h : r.matchesPK res2 k2 "remote" i2 = true) : r.matchesPK res k "local" i = false := by
  rcases matchesPK_eq_true.mp h with ⟨h1, h2, h3, h4⟩
  cases hl : r.matchesPK res k "local" i
  · rfl
  · rcases matchesPK_eq_true.mp hl with ⟨g1, g2, g3, g4⟩
    rw [h3] at g3
    exact absurd g3 (by decide)

theorem patchRow_matchesPK (res k i : String) (p : J) (r : Row) (res2 k2 t2 i2 : String) :
    (patchRow res k i p r).matchesPK res2 k2 t2 i2 = r.matchesPK res2 k2 t2 i2 := by
  unfold patchRow
  split
  · rfl
  · rfl

theorem patchRow_of_not_local {res k i : String} {p : J} {r : Row}
    (h : r.matchesPK res k "local" i = false) : patchRow res k i p r = r := by
  unfold patchRow
  simp [h]

theorem getFirstRow_append_of_some {db : DB} {res k tgt i : String} {r : Row} (l : DB)
    (h : getFirstRow db res k tgt i = some r) :
    getFirstRow (db ++ l) res k tgt i = some r := by
  unfold getFirstRow at h ⊢
  rw [List.find?_append, h]
  rfl

theorem getFirstRow_map_patch (db : DB) (res k i : String) (p : J) (res2 k2 t2 i2 : String) :
    getFirstRow (db.map (patchRow res k i p)) res2 k2 t2 i2
      = (getFirstRow db res2 k2 t2 i2).map (patchRow res k i p) := by
  unfold getFirstRow
  exact find?_map_congr _ _ (fun r => patchRow_matchesPK res k i p r res2 k2 t2 i2) db

/-- The remote (shadow) rows a given id owns in a given scope. -/
def remoteRowsFor (db : DB) (res k i : String) : List Row :=
  db.filter (fun r => r.matchesPK res k "remote" i)

theorem remoteRowsFor_eq_nil {db : DB} {res k i : String}
    (h : getFirstRow db res k "remote" i = none) :
    remoteRowsFor db res k i = [] := by
  unfold getFirstRow at h
  rw [List.find?_eq_none] at h
  unfold remoteRowsFor
  rw [List.filter_eq_nil_iff]
  exact h

theorem remoteRowsFor_append (db l : DB) (res k i : String) :
    remoteRowsFor (db ++ l) res k i = remoteRowsFor db res k i ++ remoteRowsFor l res k i := by
  simp [remoteRowsFor, List.filter_append]

theorem remoteRowsFor_map_patch (db : DB) (res k i : String) (p : J) (res2 k2 i2 : String) :
    remoteRowsFor (db.map (patchRow res k i p)) res2 k2 i2 = remoteRowsFor db res2 k2 i2 := by
  unfold remoteRowsFor
  apply filter_map_id_on
  · intro r
    exact patchRow_matchesPK res k i p r res2 k2 "remote" i2
  · intro r hr
    exact patchRow_of_not_local (matchesPK_local_eq_false_of_remote hr)

theorem remoteRowsFor_filter_not_local (db : DB) (res k i res2 k2 i2 : String) :
    remoteRowsFor (db.filter (fun r => !(r.matchesPK res k "local" i))) res2 k2 i2
      = remoteRowsFor db res2 k2 i2 := by
  unfold remoteRowsFor
  apply filter_filter_of_imp
  intro r hr
  rw [matchesPK_local_eq_false_of_remote hr]
  rfl

theorem captureShadow_of_some {db : DB} {res k i : String} {r : Row}
    (hR : getFirstRow db res k "remote" i = none)
    (hL : getFirstRow db res k "local" i = some r) :
    captureShadow db res k i = (db ++ [shadowRow res k i r.data], Except.ok ()) := by
  unfold captureShadow
  rw [hL]
  unfold insertRow shadowRow
  simp [hR]

theorem captureShadow_of_none {db : DB} {res k i : String}
    (hL : getFirstRow db res k "local" i = none) :
    captureShadow db res k i = (db, Except.ok ()) := by
  unfold captureShadow
  rw [hL]

theorem updateOp_fresh (res k : String) (T IT : J → J) (db : DB) (id : RId) (patch : J)
    (r : Row)
    (hL : getFirstRow db res k "local" (stringifyId id) = some r)
    (hR : getFirstRow db res k "remote" (stringifyId id) = none) :
    updateOp res k true T IT db id patch
      = ((db ++ [shadowRow res k (stringifyId id) r.data]).map
           (patchRow res k (stringifyId id) (IT patch)),
         Except.ok (T (jsonParseData (patchRow res k (stringifyId id) (IT patch) r).data))) := by
  have hfind : getFirstRow ((db ++ [shadowRow res k (stringifyId id) r.data]).map
      (patchRow res k (stringifyId id) (IT patch))) res k "local" (stringifyId id)
      = some (patchRow res k (stringifyId id) (IT patch) r) := by
    rw [getFirstRow_map_patch, getFirstRow_append_of_some _ hL]
    rfl
  simp only [updateOp, hR, Option.isNone_none, Bool.and_true,
    captureShadow_of_some hR hL, if_true, hfind]

theorem updateOp_stale (res k : String) (cache : Bool) (T IT : J → J) (db : DB) (id : RId)
    (patch : J) (r : Row)
    (hL : getFirstRow db res k "local" (stringifyId id) = some r)
    (hc : (cache && (getFirstRow db res k "remote" (stringifyId id)).isNone) = false) :
    updateOp res k cache T IT db id patch
      = (db.map (patchRow res k (stringifyId id) (IT patch)),
         Except.ok (T (jsonParseData (patchRow res k (stringifyId id) (IT patch) r).data))) := by
  have hfind : getFirstRow (db.map (patchRow res k (stringifyId id) (IT patch)))
      res k "local" (stringifyId id)
      = some (patchRow res k (stringifyId id) (IT patch) r) := by
    rw [getFirstRow_map_patch, hL]
    rfl
  simp only [updateOp, hc, if_false, Bool.false_eq_true, hfind]

theorem destroyOp_fresh (res k : String) (db : DB) (id : RId) (r : Row)
    (hL : getFirstRow db res k "local" (stringifyId id) = some r)
    (hR : getFirstRow db res k "remote" (stringifyId id) = none) :
    destroyOp res k true db id
      = ((db ++ [shadowRow res k (stringifyId id) r.data]).filter
           (fun r2 => !(r2.matchesPK res k "local" (stringifyId id))),
         Except.ok ()) := by
  simp only [destroyOp, hR, Option.isNone_none, Bool.and_true,
    captureShadow_of_some hR hL, if_true]

theorem destroyOp_stale (res k : String) (cache : Bool) (db : DB) (id : RId)
    (hc : (cache && (getFirstRow db res k "remote" (stringifyId id)).isNone) = false) :
    destroyOp res k cache db id
      = (db.filter (fun r2 => !(r2.matchesPK res k "local" (stringifyId id))),
         Except.ok ()) := by
  simp only [destroyOp, hc, if_false, Bool.false_eq_true]

theorem storeOp_dup (res k : String) (cache : Bool) (IT : J → J) (db : DB) (id : RId)
    (d : J) (r : Row)
    (hL : getFirstRow db res k "local" (stringifyId id) = some r) :
    (storeOp res k cache IT db id d).2 = Except.error "UNIQUE constraint failed: resources" ∧
    getFirstRow (storeOp res k cache IT db id d).1 res k "local" (stringifyId id) = some r := by
  have hdup : (getFirstRow db res k "local" (stringifyId id)).isSome = true := by
    rw [hL]; rfl
  cases cache with
  | false =>
      refine ⟨?_, ?_⟩ <;>
        simp [storeOp, insertRow, hdup, hL]
  | true =>
      cases hR : (getFirstRow db res k "remote" (stringifyId id)).isSome with
      | true =>
          refine ⟨?_, ?_⟩ <;>
            simp [storeOp, insertRow, hdup, hR, hL]
      | false =>
          refine ⟨?_, ?_⟩ <;>
            simp [storeOp, insertRow, hdup, hR, hL]
          exact getFirstRow_append_of_some _ hL

theorem lookupField_append (a b : Fields) (t : String) :
    lookupField t (a ++ b) = (lookupField t a).or (lookupField t b) := by
  induction a with
  | nil => rfl
  | cons kv rest ih =>
      obtain ⟨k, v⟩ := kv
      by_cases hk : k = t
      · simp [lookupField, hk]
      · simp [lookupField, hk, ih]

theorem lookupField_eq_none_of_any_eq_false {fs : Fields} {s : String}
    (h : fs.any (fun kv => decide (kv.1 = s)) = false) : lookupField s fs = none := by
  induction fs with
  | nil => rfl
  | cons kv rest ih =>
      obtain ⟨k, v⟩ := kv
      simp only [List.any_cons, Bool.or_eq_false_iff, decide_eq_false_iff_not] at h
      simp [lookupField, h.1, ih h.2]

theorem lookupField_eq_none_of_not_mem {fs : Fields} {s : String}
    (h : s ∉ fs.map Prod.fst) : lookupField s fs = none := by
  induction fs with
  | nil => rfl
  | cons kv rest ih =>
      obtain ⟨k, v⟩ := kv
      simp only [List.map_cons, List.mem_cons] at h
      push_neg at h
      have hk : ¬(k = s) := fun hk2 => h.1 hk2.symm
      simp [lookupField, hk, ih h.2]

theorem lookupField_mapSet (fs : Fields) (s : String) (v : J) (t : String) :
    lookupField t (fs.map (fun kv => if kv.1 = s then (s, v) else kv))
      = if t = s then (if fs.any (fun kv => decide (kv.1 = s)) then some v else none)
        else lookupField t fs := by
  induction fs with
  | nil => by_cases hts : t = s <;> simp [lookupField, hts]
  | cons kv rest ih =>
      obtain ⟨k, w⟩ := kv
      simp only [List.map_cons, List.any_cons]
      by_cases hks : k = s
      · rw [if_pos hks]
        by_cases hts : t = s
        · subst hts
          simp [lookupField, hks, ih]
        · have hst : ¬(s = t) := fun h => hts h.symm
          have hkt : ¬(k = t) := fun h => hst (hks.symm.trans h)
          simp [lookupField, hst, hkt, hts, ih]
      · rw [if_neg hks]
        by_cases hkt : k = t
        · subst hkt
          simp [lookupField, hks]
        · have h1 : lookupField t ((k, w) :: List.map
              (fun kv => if kv.1 = s then (s, v) else kv) rest)
              = lookupField t (List.map (fun kv => if kv.1 = s then (s, v) else kv) rest) := by
            simp [lookupField, hkt]
          rw [h1, ih]
          by_cases hts : t = s
          · have hd : decide (k = s) = false := decide_eq_false hks
            simp [hts]
            rw [hd]
            rfl
          · simp [lookupField, hts, hkt]

theorem lookupField_setField (fs : Fields) (s : String) (v : J) (t : String) :
    lookupField t (setField fs s v) = if t = s then some v else lookupField t fs := by
  unfold setField
  cases hany : fs.any (fun kv => decide (kv.1 = s))
  · rw [if_neg (by simp [hany])]
    rw [lookupField_append]
    by_cases hts : t = s
    · subst hts
      rw [lookupField_eq_none_of_any_eq_false hany]
      simp [lookupField]
    · have hst : ¬(s = t) := fun h2 => hts h2.symm
      have hsv : lookupField t [(s, v)] = none := by simp [lookupField, hst]
      rw [if_neg hts, hsv]
      cases h : lookupField t fs <;> simp [Option.or]
  · rw [if_pos (by simp [hany]), lookupField_mapSet, hany]
    simp

theorem lookupField_removeField (fs : Fields) (s t : String) :
    lookupField t (removeField fs s) = if t = s then none else lookupField t fs := by
  induction fs with
  | nil => by_cases hts : t = s <;> simp [removeField, lookupField, hts]
  | cons kv rest ih =>
      obtain ⟨k, v⟩ := kv
      by_cases hks : k = s
      · have hstep : removeField ((k, v) :: rest) s = removeField rest s := by
          simp [removeField, List.filter_cons, hks]
        by_cases hts : t = s
        · rw [hstep, ih, if_pos hts, if_pos hts]
        · have hkt : ¬(k = t) := fun h => hts (hks.symm.trans h).symm
          rw [hstep, ih, if_neg hts, if_neg hts]
          simp [lookupField, hkt]
      · have hstep : removeField ((k, v) :: rest) s = (k, v) :: removeField rest s := by
          simp [removeField, List.filter_cons, hks]
        rw [hstep]
        by_cases hkt : k = t
        · subst hkt
          simp [lookupField, hks]
        · have h1 : lookupField t ((k, v) :: removeField rest s)
              = lookupField t (removeField rest s) := by
            simp [lookupField, hkt]
          have h2 : lookupField t ((k, v) :: rest) = lookupField t rest := by
            simp [lookupField, hkt]
          rw [h1, ih, h2]

theorem getFieldD_removeField (fs : Fields) (s t : String) (h : ¬(t = s)) :
    getFieldD (removeField fs s) t = getFieldD fs t := by
  unfold getFieldD
  rw [lookupField_removeField, if_neg h]

theorem getFieldD_setField (fs : Fields) (s : String) (v : J) (t : String) (h : ¬(t = s)) :
    getFieldD (setField fs s v) t = getFieldD fs t := by
  unfold getFieldD
  rw [lookupField_setField, if_neg h]

theorem lookupField_mergePatchFields :
    (pfs : Fields) → (pfs.map Prod.fst).Nodup → ∀ (tfs : Fields) (s : String),
      (lookupField s pfs = some J.null →
        lookupField s (mergePatchFields tfs pfs) = none) ∧
      (∀ v, lookupField s pfs = some v → ¬(v = J.null) →
        lookupField s (mergePatchFields tfs pfs) = some (mergePatch (getFieldD tfs s) v)) ∧
      (lookupField s pfs = none →
        lookupField s (mergePatchFields tfs pfs) = lookupField s tfs)
  | [], _, tfs, s => by
      refine ⟨?_, ?_, ?_⟩
      · intro h; exact absurd h (by simp [lookupField])
      · intro v h; exact absurd h (by simp [lookupField])
      · intro _; rfl
  | (kk, pv) :: rest, hnd, tfs, s => by
      rw [List.map_cons, List.nodup_cons] at hnd
      obtain ⟨hnotin, hnd2⟩ := hnd
      have hrest_none : lookupField kk rest = none := lookupField_eq_none_of_not_mem hnotin
      by_cases hs : kk = s
      · subst hs
        refine ⟨?_, ?_, ?_⟩
        · intro h
          have hpv : pv = J.null := by simpa [lookupField] using h
          subst hpv
          show lookupField kk (mergePatchFields tfs ((kk, J.null) :: rest)) = none
          have hstep : mergePatchFields tfs ((kk, J.null) :: rest)
              = mergePatchFields (removeField tfs kk) rest := by
            simp [mergePatchFields]
          rw [hstep,
            (lookupField_mergePatchFields rest hnd2 (removeField tfs kk) kk).2.2 hrest_none,
            lookupField_removeField, if_pos rfl]
        · intro v h hv
          have hpv : pv = v := by simpa [lookupField] using h
          subst hpv
          have hstep : mergePatchFields tfs ((kk, pv) :: rest)
              = mergePatchFields (setField tfs kk (mergePatch (getFieldD tfs kk) pv)) rest := by
            simp [mergePatchFields, hv]
          rw [hstep,
            (lookupField_mergePatchFields rest hnd2 _ kk).2.2 hrest_none,
            lookupField_setField, if_pos rfl]
        · intro h
          exact absurd h (by simp [lookupField])
      · have hlook : lookupField s ((kk, pv) :: rest) = lookupField s rest := by
          simp [lookupField, hs]
        have hd : getFieldD (removeField tfs kk) s = getFieldD tfs s :=
          getFieldD_removeField tfs kk s (fun h => hs h.symm)
        have hd2 : ∀ w, getFieldD (setField tfs kk w) s = getFieldD tfs s :=
          fun w => getFieldD_setField tfs kk w s (fun h => hs h.symm)
        by_cases hpv : pv = J.null
        · subst hpv
          have hstep : mergePatchFields tfs ((kk, J.null) :: rest)
              = mergePatchFields (removeField tfs kk) rest := by
            simp [mergePatchFields]
          have ihr := lookupField_mergePatchFields rest hnd2 (removeField tfs kk) s
          refine ⟨?_, ?_, ?_⟩
          · intro h
            rw [hstep]
            exact ihr.1 (hlook ▸ h)
          · intro v h hv
            rw [hstep, ihr.2.1 v (hlook ▸ h) hv, hd]
          · intro h
            rw [hstep, ihr.2.2 (hlook ▸ h), lookupField_removeField,
              if_neg (fun h2 => hs h2.symm)]
        · have hstep : mergePatchFields tfs ((kk, pv) :: rest)
              = mergePatchFields (setField tfs kk (mergePatch (getFieldD tfs kk) pv)) rest := by
            simp [mergePatchFields, hpv]
          have ihr := lookupField_mergePatchFields rest hnd2
            (setField tfs kk (mergePatch (getFieldD tfs kk) pv)) s
          refine ⟨?_, ?_, ?_⟩
          · intro h
            rw [hstep]
            exact ihr.1 (hlook ▸ h)
          · intro v h hv
            rw [hstep, ihr.2.1 v (hlook ▸ h) hv, hd2]
          · intro h
            rw [hstep, ihr.2.2 (hlook ▸ h), lookupField_setField,
              if_neg (fun h2 => hs h2.symm)]

theorem fields_eq_of_same_order :
    (a b : Fields) → (a.map Prod.fst).Nodup → a.map Prod.fst = b.map Prod.fst →
    (∀ kv ∈ a, lookupField kv.1 b = some kv.2) → a = b
  | [], [], _, _, _ => rfl
  | [], kv :: rest, _, hkeys, _ => by simp at hkeys
  | kv :: rest, [], _, hkeys, _ => by simp at hkeys
  | (k1, v1) :: rest1, (k2, v2) :: rest2, hnd, hkeys, hvals => by
      simp only [List.map_cons, List.cons.injEq] at hkeys
      obtain ⟨hk, hkeys2⟩ := hkeys
      subst hk
      simp only [List.map_cons, List.nodup_cons] at hnd
      obtain ⟨hnotin, hnd2⟩ := hnd
      have hv : v1 = v2 := by
        have h := hvals (k1, v1) (List.mem_cons_self _ _)
        have h2 : some v2 = some v1 := by simpa [lookupField] using h
        exact (Option.some.injEq v2 v1 ▸ h2).symm
      subst hv
      have htail : ∀ kv ∈ rest1, lookupField kv.1 rest2 = some kv.2 := by
        intro kv hkv
        have hne : ¬(k1 = kv.1) := by
          intro h
          exact hnotin (h ▸ List.mem_map_of_mem Prod.fst hkv)
        have h := hvals kv (List.mem_cons_of_mem _ hkv)
        simpa [lookupField, hne] using h
      rw [fields_eq_of_same_order rest1 rest2 hnd2 hkeys2 htail]

theorem remoteRowsFor_singleton_shadow (res k i : String) (d : Data) :
    remoteRowsFor [shadowRow res k i d] res k i = [shadowRow res k i d] := by
  simp [remoteRowsFor, List.filter_cons, shadowRow, Row.matchesPK]

theorem updateOp_fresh_db (res k : String) (T IT : J → J) (db : DB) (id : RId) (patch : J)
    (r : Row)
    (hL : getFirstRow db res k "local" (stringifyId id) = some r)
    (hR : getFirstRow db res k "remote" (stringifyId id) = none) :
    (updateOp res k true T IT db id patch).1
      = (db ++ [shadowRow res k (stringifyId id) r.data]).map
          (patchRow res k (stringifyId id) (IT patch)) := by
  rw [updateOp_fresh res k T IT db id patch r hL hR]

theorem updateOp_stale_db (res k : String) (cache : Bool) (T IT : J → J) (db : DB)
    (id : RId) (patch : J)
    (hc : (cache && (getFirstRow db res k "remote" (stringifyId id)).isNone) = false) :
    (updateOp res k cache T IT db id patch).1
      = db.map (patchRow res k (stringifyId id) (IT patch)) := by
  unfold updateOp
  dsimp only
  simp only [hc, Bool.false_eq_true, if_false]
  split <;> rfl

theorem destroyOp_fresh_db (res k : String) (db : DB) (id : RId) (r : Row)
    (hL : getFirstRow db res k "local" (stringifyId id) = some r)
    (hR : getFirstRow db res k "remote" (stringifyId id) = none) :
    (destroyOp res k true db id).1
      = (db ++ [shadowRow res k (stringifyId id) r.data]).filter
          (fun r2 => !(r2.matchesPK res k "local" (stringifyId id))) := by
  rw [destroyOp_fresh res k db id r hL hR]

theorem destroyOp_stale_db (res k : String) (cache : Bool) (db : DB) (id : RId)
    (hc : (cache && (getFirstRow db res k "remote" (stringifyId id)).isNone) = false) :
    (destroyOp res k cache db id).1
      = db.filter (fun r2 => !(r2.matchesPK res k "local" (stringifyId id))) := by
  rw [destroyOp_stale res k cache db id hc]

theorem remoteRows_update_fresh (res k : String) (T IT : J → J) (db : DB) (id : RId)
    (patch : J) (r : Row)
    (hL : getFirstRow db res k "local" (stringifyId id) = some r)
    (hR : getFirstRow db res k "remote" (stringifyId id) = none) :
    remoteRowsFor (updateOp res k true T IT db id patch).1 res k (stringifyId id)
      = [shadowRow res k (stringifyId id) r.data] := by
  rw [updateOp_fresh_db res k T IT db id patch r hL hR, remoteRowsFor_map_patch,
    remoteRowsFor_append, remoteRowsFor_eq_nil hR, remoteRowsFor_singleton_shadow,
    List.nil_append]

theorem remoteRows_destroy_fresh (res k : String) (db : DB) (id : RId) (r : Row)
    (hL : getFirstRow db res k "local" (stringifyId id) = some r)
    (hR : getFirstRow db res k "remote" (stringifyId id) = none) :
    remoteRowsFor (destroyOp res k true db id).1 res k (stringifyId id)
      = [shadowRow res k (stringifyId id) r.data] := by
  rw [destroyOp_fresh_db res k db id r hL hR, remoteRowsFor_filter_not_local,
    remoteRowsFor_append, remoteRowsFor_eq_nil hR, remoteRowsFor_singleton_shadow,
    List.nil_append]

theorem remoteRows_update_stale (res k : String) (cache : Bool) (T IT : J → J) (db : DB)
    (id : RId) (patch : J)
    (hc : (cache && (getFirstRow db res k "remote" (stringifyId id)).isNone) = false) :
    remoteRowsFor (updateOp res k cache T IT db id patch).1 res k (stringifyId id)
      = remoteRowsFor db res k (stringifyId id) := by
  rw [updateOp_stale_db res k cache T IT db id patch hc, remoteRowsFor_map_patch]

theorem remoteRows_destroy_stale (res k : String) (cache : Bool) (db : DB) (id : RId)
    (hc : (cache && (getFirstRow db res k "remote" (stringifyId id)).isNone) = false) :
    remoteRowsFor (destroyOp res k cache db id).1 res k (stringifyId id)
      = remoteRowsFor db res k (stringifyId id) := by
  rw [destroyOp_stale_db res k cache db id hc, remoteRowsFor_filter_not_local]

theorem updateOp_patches_local (res k : String) (cache : Bool) (T IT : J → J) (db : DB)
    (id : RId) (patch : J) (r : Row)
    (hL : getFirstRow db res k "local" (stringifyId id) = some r) :
    getFirstRow (updateOp res k cache T IT db id patch).1 res k "local" (stringifyId id)
        = some (patchRow res k (stringifyId id) (IT patch) r) ∧
    (updateOp res k cache T IT db id patch).2
        = Except.ok (T (jsonParseData (patchRow res k (stringifyId id) (IT patch) r).data)) := by
  cases hc : (cache && (getFirstRow db res k "remote" (stringifyId id)).isNone) with
  | false =>
      rw [updateOp_stale res k cache T IT db id patch r hL hc]
      constructor
      · rw [getFirstRow_map_patch, hL]
        rfl
      · rfl
  | true =>
      have hcache : cache = true := by
        cases cache
        · simp at hc
        · rfl
      have hR : getFirstRow db res k "remote" (stringifyId id) = none := by
        cases hfr : getFirstRow db res k "remote" (stringifyId id)
        · rfl
        · rw [hcache, hfr] at hc
          simp at hc
      subst hcache
      rw [updateOp_fresh res k T IT db id patch r hL hR]
      constructor
      · rw [getFirstRow_map_patch, getFirstRow_append_of_some _ hL]
        rfl
      · rfl

theorem applyRowToEntry_id (T : J → J) (e : CacheEntry) (r : Row) :
    (applyRowToEntry T e r).id = e.id := by
  unfold applyRowToEntry
  split
  · rfl
  · split <;> rfl

theorem applyRowToEntry_remote_of_not_remote (T : J → J) (e : CacheEntry) (r : Row)
    (h : ¬(r.target = "remote")) : (applyRowToEntry T e r).remote = e.remote := by
  unfold applyRowToEntry
  by_cases h1 : r.target = "local"
  · rw [if_pos h1]
  · rw [if_neg h1, if_neg h]

theorem getCacheFold_remote_none (T : J → J) (i : RId) :
    ∀ (rows : List Row) (acc : List CacheEntry),
      (∀ r ∈ rows, ¬(r.target = "remote" ∧ parseId r.id = i)) →
      (∀ e ∈ acc, e.id = i → e.remote = none) →
      ∀ e ∈ rows.foldl (getCacheFold T) acc, e.id = i → e.remote = none
  | [], acc, _, hacc => hacc
  | r :: rest, acc, hrows, hacc => by
      rw [List.foldl_cons]
      refine getCacheFold_remote_none T i rest (getCacheFold T acc r)
        (fun r2 hr2 => hrows r2 (List.mem_cons_of_mem _ hr2)) ?_
      have hrow := hrows r (List.mem_cons_self _ _)
      intro e he hei
      unfold getCacheFold at he
      by_cases hany : acc.any (fun e2 => decide (e2.id = parseId r.id))
      · rw [if_pos hany] at he
        rw [List.mem_map] at he
        obtain ⟨e0, he0, hmap⟩ := he
        by_cases hid : e0.id = parseId r.id
        · rw [if_pos hid] at hmap
          have h6 := applyRowToEntry_id T e0 r
          rw [hmap] at h6
          have h5 : e0.id = i := by rw [← h6]; exact hei
          have htgt : ¬(r.target = "remote") := by
            intro ht
            refine hrow ⟨ht, ?_⟩
            rw [← hid]
            exact h5
          rw [← hmap, applyRowToEntry_remote_of_not_remote T e0 r htgt]
          exact hacc e0 he0 h5
        · rw [if_neg hid] at hmap
          rw [← hmap]
          exact hacc e0 he0 (by rw [hmap]; exact hei)
      · rw [if_neg hany] at he
        rw [List.mem_append] at he
        cases he with
        | inl he2 => exact hacc e he2 hei
        | inr he2 =>
            rw [List.mem_singleton] at he2
            have hid0 : (applyRowToEntry T
                { id := parseId r.id, localData := J.null, remote := none } r).id
                = parseId r.id := applyRowToEntry_id T _ r
            have hpid : parseId r.id = i := by rw [← hid0, ← he2, hei]
            have htgt : ¬(r.target = "remote") := fun ht => hrow ⟨ht, hpid⟩
            rw [he2, applyRowToEntry_remote_of_not_remote T _ r htgt]

theorem syncOp_single_db (res k : String) (db : DB) (id : RId) :
    (syncOp res k db [id]).1
      = db.filter (fun r =>
          !(r.resource == res && r.key == k && r.target == "remote"
            && decide (r.id ∈ [stringifyId id]))) := rfl

theorem syncOp_single_local (res k : String) (db : DB) (id : RId) (i2 : String) :
    getFirstRow (syncOp res k db [id]).1 res k "local" i2
      = getFirstRow db res k "local" i2 := by
  rw [syncOp_single_db]
  unfold getFirstRow
  apply find?_filter_of_imp
  intro r hr
  rcases matchesPK_eq_true.mp hr with ⟨h1, h2, h3, h4⟩
  have hfalse : (("local" : String) == "remote") = false := by decide
  simp [h3, hfalse]

theorem syncOp_single_remote (res k : String) (db : DB) (id : RId) :
    getFirstRow (syncOp res k db [id]).1 res k "remote" (stringifyId id) = none := by
  rw [syncOp_single_db]
  unfold getFirstRow
  rw [List.find?_eq_none]
  intro r hr hmk
  rw [List.mem_filter] at hr
  rcases matchesPK_eq_true.mp hmk with ⟨h1, h2, h3, h4⟩
  have hkeep := hr.2
  simp [h1, h2, h3, h4] at hkeep

/-- The rows lying outside a given resource/scope. -/
def otherScopeRows (res k : String) (db : DB) : DB :=
  db.filter (fun r => !(r.resource == res && r.key == k))

theorem otherScopeRows_append_row (res k : String) (db : DB) (r : Row)
    (h1 : r.resource = res) (h2 : r.key = k) :
    otherScopeRows res k (db ++ [r]) = otherScopeRows res k db := by
  unfold otherScopeRows
  rw [List.filter_append]
  simp [List.filter_cons, h1, h2]

theorem otherScopeRows_insertRow (res k : String) (db : DB) (r : Row)
    (h1 : r.resource = res) (h2 : r.key = k) :
    otherScopeRows res k (insertRow db r).1 = otherScopeRows res k db := by
  unfold insertRow
  split
  · rfl
  · exact otherScopeRows_append_row res k db r h1 h2

theorem otherScopeRows_captureShadow (res k i : String) (db : DB) :
    otherScopeRows res k (captureShadow db res k i).1 = otherScopeRows res k db := by
  unfold captureShadow
  cases h : getFirstRow db res k "local" i with
  | none => rfl
  | some r2 => exact otherScopeRows_insertRow res k db _ rfl rfl

theorem otherScopeRows_map_patch (res k i : String) (p : J) (db : DB) :
    otherScopeRows res k (db.map (patchRow res k i p)) = otherScopeRows res k db := by
  unfold otherScopeRows
  apply filter_map_id_on
  · intro r
    unfold patchRow
    split <;> rfl
  · intro r hr
    apply patchRow_of_not_local
    cases hm : r.matchesPK res k "local" i
    · rfl
    · rcases matchesPK_eq_true.mp hm with ⟨h1, h2, _, _⟩
      simp [h1, h2] at hr

theorem otherScopeRows_filter_not_local (res k i : String) (db : DB) :
    otherScopeRows res k (db.filter (fun r => !(r.matchesPK res k "local" i)))
      = otherScopeRows res k db := by
  unfold otherScopeRows
  apply filter_filter_of_imp
  intro r hr
  cases hm : r.matchesPK res k "local" i
  · rfl
  · rcases matchesPK_eq_true.mp hm with ⟨h1, h2, _, _⟩
    simp [h1, h2] at hr

theorem otherScopeRows_storeOp (res k : String) (cache : Bool) (IT : J → J) (db : DB)
    (id : RId) (d : J) :
    otherScopeRows res k (storeOp res k cache IT db id d).1 = otherScopeRows res k db := by
  unfold storeOp
  cases cache
  · exact otherScopeRows_insertRow res k db _ rfl rfl
  · simp only [if_true]
    rw [otherScopeRows_insertRow res k _ _ rfl rfl,
      otherScopeRows_insertRow res k db _ rfl rfl]

theorem otherScopeRows_updateOp (res k : String) (cache : Bool) (T IT : J → J) (db : DB)
    (id : RId) (patch : J) :
    otherScopeRows res k (updateOp res k cache T IT db id patch).1
      = otherScopeRows res k db := by
  unfold updateOp
  dsimp only
  have hstep : otherScopeRows res k
      (if cache && (getFirstRow db res k "remote" (stringifyId id)).isNone
        then captureShadow db res k (stringifyId id) else (db, Except.ok ())).1
      = otherScopeRows res k db := by
    split
    · exact otherScopeRows_captureShadow res k _ db
    · rfl
  split
  · exact hstep
  · split
    · rw [otherScopeRows_map_patch, hstep]
    · rw [otherScopeRows_map_patch, hstep]

theorem otherScopeRows_destroyOp (res k : String) (cache : Bool) (db : DB) (id : RId) :
    otherScopeRows res k (destroyOp res k cache db id).1 = otherScopeRows res k db := by
  unfold destroyOp
  dsimp only
  have hstep : otherScopeRows res k
      (if cache && (getFirstRow db res k "remote" (stringifyId id)).isNone
        then captureShadow db res k (stringifyId id) else (db, Except.ok ())).1
      = otherScopeRows res k db := by
    split
    · exact otherScopeRows_captureShadow res k _ db
    · rfl
  split
  · exact hstep
  · rw [otherScopeRows_filter_not_local, hstep]

theorem otherScopeRows_batchDestroyOne (res k : String) (cache : Bool) (db : DB)
    (id : RId) :
    otherScopeRows res k (batchDestroyOne res k cache db id).1 = otherScopeRows res k db := by
  unfold batchDestroyOne
  dsimp only
  have hstep : otherScopeRows res k
      (if cache && (getFirstRow db res k "remote" (idToString id)).isNone
        then captureShadow db res k (stringifyId id) else (db, Except.ok ())).1
      = otherScopeRows res k db := by
    split
    · exact otherScopeRows_captureShadow res k _ db
    · rfl
  split
  · exact hstep
  · rw [otherScopeRows_filter_not_local, hstep]

theorem otherScopeRows_syncOp (res k : String) (db : DB) (ids : List RId) :
    otherScopeRows res k (syncOp res k db ids).1 = otherScopeRows res k db := by
  unfold syncOp
  split
  · rfl
  · unfold otherScopeRows
    apply filter_filter_of_imp
    intro r hr
    cases hm : (r.resource == res && r.key == k && r.target == "remote"
        && decide (r.id ∈ ids.map stringifyId))
    · rfl
    · simp only [Bool.and_eq_true, beq_iff_eq] at hm
      simp [hm.1.1.1, hm.1.1.2] at hr

theorem otherScopeRows_batchStore (res k : String) (cache : Bool) (IT : J → J) :
    ∀ (items : List (RId × J)) (db : DB),
      otherScopeRows res k (batchStore res k cache IT db items).1 = otherScopeRows res k db
  | [], _ => rfl
  | item :: rest, db => by
      show otherScopeRows res k (batchStore res k cache IT
          (storeOp res k cache IT db item.1 item.2).1 rest).1 = otherScopeRows res k db
      rw [otherScopeRows_batchStore res k cache IT rest _,
        otherScopeRows_storeOp res k cache IT db item.1 item.2]

theorem otherScopeRows_batchUpdate (res k : String) (cache : Bool) (T IT : J → J) :
    ∀ (items : List (RId × J)) (db : DB),
      otherScopeRows res k (batchUpdate res k cache T IT db items).1 = otherScopeRows res k db
  | [], _ => rfl
  | item :: rest, db => by
      show otherScopeRows res k (batchUpdate res k cache T IT
          (updateOp res k cache T IT db item.1 item.2).1 rest).1 = otherScopeRows res k db
      rw [otherScopeRows_batchUpdate res k cache T IT rest _,
        otherScopeRows_updateOp res k cache T IT db item.1 item.2]

theorem otherScopeRows_batchDestroy (res k : String) (cache : Bool) :
    ∀ (ids : List RId) (db : DB),
      otherScopeRows res k (batchDestroy res k cache db ids).1 = otherScopeRows res k db
  | [], _ => rfl
  | id :: rest, db => by
      show otherScopeRows res k (batchDestroy res k cache
          (batchDestroyOne res k cache db id).1 rest).1 = otherScopeRows res k db
      rw [otherScopeRows_batchDestroy res k cache rest _,
        otherScopeRows_batchDestroyOne res k cache db id]

example : mergePatch (J.obj [("a", J.num 1), ("b", J.num 2)])
    (J.obj [("b", J.null), ("c", J.num 3)]) = J.obj [("a", J.num 1), ("c", J.num 3)] := by
  decide

example : jsonStringify (J.obj [("a", J.num 1)]) = "\x7b\"a\":1\x7d" := by decide

example : parseId (stringifyId (RId.num 17)) = RId.num 17 := by decide

example : parseId (stringifyId (RId.str "5")) = RId.str "5" := by decide

example : dateTransformer (inverseDateTransformer (J.obj [("d", J.date 99)]))
    = J.obj [("d", J.date 99)] := by decide

/-- C1: for an id in the Clean state (a local row present, no shadow row) in a given
resource/scope, the first update or destroy creates exactly one remote (shadow) row,
whose payload equals the pre-mutation local payload; and whenever a shadow row already
exists for the id — whatever its payload, including the null sentinel written by store
with caching on — update and destroy capture nothing and leave the shadow rows of the
id exactly as they were. -/
theorem C1_shadow_capture_exactly_once (res k : String) (T IT : J → J) (patch : J) :
    (∀ (db : DB) (id : RId) (r : Row),
      getFirstRow db res k "local" (stringifyId id) = some r →
      getFirstRow db res k "remote" (stringifyId id) = none →
      remoteRowsFor (updateOp res k true T IT db id patch).1 res k (stringifyId id)
          = [shadowRow res k (stringifyId id) r.data] ∧
      remoteRowsFor (destroyOp res k true db id).1 res k (stringifyId id)
          = [shadowRow res k (stringifyId id) r.data]) ∧
    (∀ (db : DB) (id : RId) (r2 : Row),
      getFirstRow db res k "remote" (stringifyId id) = some r2 →
      remoteRowsFor (updateOp res k true T IT db id patch).1 res k (stringifyId id)
          = remoteRowsFor db res k (stringifyId id) ∧
      remoteRowsFor (destroyOp res k true db id).1 res k (stringifyId id)
          = remoteRowsFor db res k (stringifyId id)) := by
  constructor
  · intro db id r hL hR
    exact ⟨remoteRows_update_fresh res k T IT db id patch r hL hR,
      remoteRows_destroy_fresh res k db id r hL hR⟩
  · intro db id r2 hR2
    have hc : (true && (getFirstRow db res k "remote" (stringifyId id)).isNone) = false := by
      rw [hR2]
      rfl
    exact ⟨remoteRows_update_stale res k true T IT db id patch hc,
      remoteRows_destroy_stale res k true db id hc⟩

/-- Witness for C1 at concrete stores: a clean id captured by update, and an already
tracked id (null-sentinel shadow) left untouched by destroy. -/
theorem C1_shadow_capture_exactly_once_witness :
    (remoteRowsFor (updateOp "r" "k" true (fun x => x) (fun x => x)
        [{ resource := "r", key := "k", target := "local", id := "1", data := some (J.num 4) }]
        (RId.num 1) (J.obj [])).1 "r" "k" (stringifyId (RId.num 1))
      = [shadowRow "r" "k" (stringifyId (RId.num 1)) (some (J.num 4))]) ∧
    (remoteRowsFor (destroyOp "r" "k" true
        [{ resource := "r", key := "k", target := "local", id := "1", data := some (J.num 4) },
         { resource := "r", key := "k", target := "remote", id := "1", data := none }]
        (RId.num 1)).1 "r" "k" (stringifyId (RId.num 1))
      = remoteRowsFor
        [{ resource := "r", key := "k", target := "local", id := "1", data := some (J.num 4) },
         { resource := "r", key := "k", target := "remote", id := "1", data := none }]
        "r" "k" (stringifyId (RId.num 1))) :=
  ⟨((C1_shadow_capture_exactly_once "r" "k" (fun x => x) (fun x => x) (J.obj [])).1
      [{ resource := "r", key := "k", target := "local", id := "1", data := some (J.num 4) }]
      (RId.num 1) _ rfl rfl).1,
   ((C1_shadow_capture_exactly_once "r" "k" (fun x => x) (fun x => x) (J.obj [])).2
      [{ resource := "r", key := "k", target := "local", id := "1", data := some (J.num 4) },
       { resource := "r", key := "k", target := "remote", id := "1", data := none }]
      (RId.num 1) _ rfl).2⟩

/-- C2: for an existing local row whose payload is an object, update merge-patches the
storage form of the partial onto the payload with RFC 7396 semantics — a field set to
null in the patch is deleted, a new field is added, an omitted field is preserved,
with the example of the spec computed explicitly — and returns the domain transform of the
patched local payload read back from the store. -/
theorem C2_update_merge_patch (res k : String) (cache : Bool) (T IT : J → J) (db : DB)
    (id : RId) (patch : J) (tfs pfs : Fields)
    (hL : getFirstRow db res k "local" (stringifyId id)
        = some { resource := res, key := k, target := "local", id := stringifyId id,
                 data := some (J.obj tfs) })
    (hIT : IT patch = J.obj pfs)
    (hnd : (pfs.map Prod.fst).Nodup) :
    getFirstRow (updateOp res k cache T IT db id patch).1 res k "local" (stringifyId id)
        = some { resource := res, key := k, target := "local", id := stringifyId id,
                 data := some (J.obj (mergePatchFields tfs pfs)) } ∧
    (updateOp res k cache T IT db id patch).2
        = Except.ok (T (J.obj (mergePatchFields tfs pfs))) ∧
    (∀ s, lookupField s pfs = some J.null →
        lookupField s (mergePatchFields tfs pfs) = none) ∧
    (∀ s v, lookupField s pfs = some v → ¬(v = J.null) →
        lookupField s (mergePatchFields tfs pfs) = some (mergePatch (getFieldD tfs s) v)) ∧
    (∀ s, lookupField s pfs = none →
        lookupField s (mergePatchFields tfs pfs) = lookupField s tfs) ∧
    mergePatch (J.obj [("a", J.num 1), ("b", J.num 2)]) (J.obj [("b", J.null), ("c", J.num 3)])
        = J.obj [("a", J.num 1), ("c", J.num 3)] := by
  have hm : mergePatch (J.obj tfs) (IT patch) = J.obj (mergePatchFields tfs pfs) := by
    rw [hIT]
    rfl
  have hmk : Row.matchesPK
      { resource := res, key := k, target := "local",
        id := stringifyId id, data := some (J.obj tfs) }
      res k "local" (stringifyId id) = true := by
    simp [Row.matchesPK]
  have hpr : patchRow res k (stringifyId id) (IT patch)
      { resource := res, key := k, target := "local", id := stringifyId id,
        data := some (J.obj tfs) }
      = { resource := res, key := k, target := "local", id := stringifyId id,
          data := some (J.obj (mergePatchFields tfs pfs)) } := by
    simp only [patchRow, hmk, if_true]
    simp [hm]
  obtain ⟨g1, g2⟩ := updateOp_patches_local res k cache T IT db id patch _ hL
  refine ⟨?_, ?_, ?_, ?_, ?_, by decide⟩
  · rw [g1, hpr]
  · rw [g2, hpr]
    rfl
  · exact fun s h => (lookupField_mergePatchFields pfs hnd tfs s).1 h
  · exact fun s v h hv => (lookupField_mergePatchFields pfs hnd tfs s).2.1 v h hv
  · exact fun s h => (lookupField_mergePatchFields pfs hnd tfs s).2.2 h

/-- The store the C2 witness runs on: a local row for id 1 holding the spec example
object with a = 1 and b = 2. -/
def dbC2 : DB :=
  [localRowOf "r" "k" (stringifyId (RId.num 1)) (some (J.obj [("a", J.num 1), ("b", J.num 2)]))]

/-- Witness for C2: the example of the spec, run through update on a concrete store. -/
theorem C2_update_merge_patch_witness :
    getFirstRow (updateOp "r" "k" true (fun x => x) (fun x => x) dbC2
        (RId.num 1) (J.obj [("b", J.null), ("c", J.num 3)])).1
        "r" "k" "local" (stringifyId (RId.num 1))
      = some { resource := "r", key := "k", target := "local", id := stringifyId (RId.num 1),
               data := some (J.obj (mergePatchFields [("a", J.num 1), ("b", J.num 2)]
                 [("b", J.null), ("c", J.num 3)])) } ∧
    (updateOp "r" "k" true (fun x => x) (fun x => x) dbC2
        (RId.num 1) (J.obj [("b", J.null), ("c", J.num 3)])).2
      = Except.ok ((fun x => x) (J.obj (mergePatchFields [("a", J.num 1), ("b", J.num 2)]
          [("b", J.null), ("c", J.num 3)]))) :=
  ⟨(C2_update_merge_patch "r" "k" true (fun x => x) (fun x => x) dbC2 (RId.num 1)
      (J.obj [("b", J.null), ("c", J.num 3)]) [("a", J.num 1), ("b", J.num 2)]
      [("b", J.null), ("c", J.num 3)] rfl rfl (by decide)).1,
   (C2_update_merge_patch "r" "k" true (fun x => x) (fun x => x) dbC2 (RId.num 1)
      (J.obj [("b", J.null), ("c", J.num 3)]) [("a", J.num 1), ("b", J.num 2)]
      [("b", J.null), ("c", J.num 3)] rfl rfl (by decide)).2.1⟩

/-- C3: after sync of an id, no shadow row remains for it, its getCache entry carries
no shadow field, and a subsequent update or destroy recaptures a fresh baseline from
the then-current local payload. -/
theorem C3_sync_resets_tracking (res k : String) (T IT : J → J) (db : DB) (id : RId)
    (r : Row) (patch : J)
    (hcanon : ∀ q ∈ db, stringifyId (parseId q.id) = q.id)
    (hL : getFirstRow db res k "local" (stringifyId id) = some r) :
    remoteRowsFor (syncOp res k db [id]).1 res k (stringifyId id) = [] ∧
    (∀ e ∈ getCacheOp res k T (syncOp res k db [id]).1, e.id = id → e.remote = none) ∧
    remoteRowsFor (updateOp res k true T IT (syncOp res k db [id]).1 id patch).1
        res k (stringifyId id) = [shadowRow res k (stringifyId id) r.data] ∧
    remoteRowsFor (destroyOp res k true (syncOp res k db [id]).1 id).1
        res k (stringifyId id) = [shadowRow res k (stringifyId id) r.data] := by
  have hR2 := syncOp_single_remote res k db id
  have hL2 : getFirstRow (syncOp res k db [id]).1 res k "local" (stringifyId id) = some r := by
    rw [syncOp_single_local]
    exact hL
  refine ⟨remoteRowsFor_eq_nil hR2, ?_, ?_, ?_⟩
  · apply getCacheFold_remote_none T id
    · intro r2 hr2
      rw [List.mem_filter] at hr2
      obtain ⟨hr2db, hr2scope⟩ := hr2
      rw [syncOp_single_db, List.mem_filter] at hr2db
      obtain ⟨hr2db2, hr2keep⟩ := hr2db
      rintro ⟨htgt, hid⟩
      have hidstr : r2.id = stringifyId id := by
        rw [← hcanon r2 hr2db2, hid]
      simp only [Bool.and_eq_true, beq_iff_eq] at hr2scope
      simp [hr2scope.1, hr2scope.2, htgt, hidstr] at hr2keep
    · intro e he
      exact absurd he (List.not_mem_nil e)
  · have h := remoteRows_update_fresh res k T IT (syncOp res k db [id]).1 id patch r hL2 hR2
    exact h
  · exact remoteRows_destroy_fresh res k (syncOp res k db [id]).1 id r hL2 hR2

/-- Witness for C3 at a concrete tracked store: a local row and a null-sentinel shadow
row for id 1, synced and then destroyed. -/
theorem C3_sync_resets_tracking_witness :
    remoteRowsFor (syncOp "r" "k"
        [{ resource := "r", key := "k", target := "local", id := "1", data := some (J.num 4) },
         { resource := "r", key := "k", target := "remote", id := "1", data := none }]
        [RId.num 1]).1 "r" "k" (stringifyId (RId.num 1)) = [] ∧
    (∀ e ∈ getCacheOp "r" "k" (fun x => x) (syncOp "r" "k"
        [{ resource := "r", key := "k", target := "local", id := "1", data := some (J.num 4) },
         { resource := "r", key := "k", target := "remote", id := "1", data := none }]
        [RId.num 1]).1, e.id = RId.num 1 → e.remote = none) ∧
    remoteRowsFor (updateOp "r" "k" true (fun x => x) (fun x => x) (syncOp "r" "k"
        [{ resource := "r", key := "k", target := "local", id := "1", data := some (J.num 4) },
         { resource := "r", key := "k", target := "remote", id := "1", data := none }]
        [RId.num 1]).1 (RId.num 1) (J.obj [])).1 "r" "k" (stringifyId (RId.num 1))
      = [shadowRow "r" "k" (stringifyId (RId.num 1)) (some (J.num 4))] ∧
    remoteRowsFor (destroyOp "r" "k" true (syncOp "r" "k"
        [{ resource := "r", key := "k", target := "local", id := "1", data := some (J.num 4) },
         { resource := "r", key := "k", target := "remote", id := "1", data := none }]
        [RId.num 1]).1 (RId.num 1)).1 "r" "k" (stringifyId (RId.num 1))
      = [shadowRow "r" "k" (stringifyId (RId.num 1)) (some (J.num 4))] :=
  C3_sync_resets_tracking "r" "k" (fun x => x) (fun x => x)
    [{ resource := "r", key := "k", target := "local", id := "1", data := some (J.num 4) },
     { resource := "r", key := "k", target := "remote", id := "1", data := none }]
    (RId.num 1) _ (J.obj []) (by decide) rfl

/-- C4: the claim that with transformDates off the storage-direction transform is
exactly the caller-supplied inverse transformer fails on the code: the configuration
builder takes an else branch yielding the date serializer of the utility package instead of the
caller-supplied function (while the domain direction correctly falls back to the
caller-supplied transformer), so a non-identity caller transform is silently ignored. -/
theorem C4_inverse_transform_ignores_base :
    adapterInverseTransformer false (fun _ => J.num 7) = inverseDateTransformer ∧
    adapterInverseTransformer false (fun _ => J.num 7) (J.str "x") = J.str "x" ∧
    (fun _ : J => J.num 7) (J.str "x") = J.num 7 ∧
    adapterTransformer false (fun _ => J.num 7) (J.str "x") = J.num 7 :=
  ⟨rfl, rfl, rfl, rfl⟩

/-- The store C5 and its claim run on: one local row for id 1 in scope ("r", "k"). -/
def dbC5 : DB :=
  [{ resource := "r", key := "k", target := "local", id := "1",
     data := some (J.obj [("a", J.num 1)]) }]

/-- C5: refresh with an id faults on an existing local row — the projected SELECT has
no resource field, and parsing that undefined value throws — instead of returning the
domain form of the payload; a missing id does return a null data envelope. -/
theorem C5_refresh_single_faults :
    (refreshOne "r" "k" (fun x => x) dbC5 (RId.num 1)).2
        = Except.error "SyntaxError: unexpected token in JSON" ∧
    (refreshOne "r" "k" (fun x => x) dbC5 (RId.num 2)).2 = Except.ok none := by
  decide

/-- The store C6 runs on: what store with caching leaves for string id "5" — a local
row and a null-sentinel shadow row, both under the JSON.stringify encoding of the id. -/
def dbC6 : DB :=
  (storeOp "r" "k" true (fun x => x) [] (RId.str "5") (J.obj [("id", J.str "5")])).1

/-- C6: batchDestroy does not behave like destroy on string ids: its shadow-existence
check encodes the id with toString, misses the existing shadow row stored under the
JSON.stringify encoding, reruns the capture INSERT and fails on the duplicate primary
key, leaving the store unchanged — while destroy on the same store succeeds and
deletes the local row. -/
theorem C6_batchDestroy_toString_check_diverges :
    (batchDestroy "r" "k" true dbC6 [RId.str "5"]).2
        = Except.error "UNIQUE constraint failed: resources" ∧
    (batchDestroy "r" "k" true dbC6 [RId.str "5"]).1 = dbC6 ∧
    (destroyOp "r" "k" true dbC6 (RId.str "5")).2 = Except.ok () ∧
    (destroyOp "r" "k" true dbC6 (RId.str "5")).1
        = [{ resource := "r", key := "k", target := "remote", id := "\"5\"", data := none }] := by
  decide

/-- The store C7 runs on: one local row for id 1. -/
def dbC7 : DB :=
  [{ resource := "r", key := "k", target := "local", id := "1", data := some (J.num 4) }]

/-- C7 counterexample: store on an id that already has a local row does not succeed
and replace the payload — the plain INSERT fails with a uniqueness-constraint error
and the store is unchanged. -/
theorem C7_counterexample :
    (storeOp "r" "k" false (fun x => x) dbC7 (RId.num 1) (J.num 9)).2
        = Except.error "UNIQUE constraint failed: resources" ∧
    (storeOp "r" "k" false (fun x => x) dbC7 (RId.num 1) (J.num 9)).1 = dbC7 := by
  decide

/-- C7 amended: store writes the local row with a plain INSERT, not an upsert: for
every record whose id already has a local row in the same resource/scope, store fails
with a uniqueness-constraint error and the existing local row keeps its payload. -/
theorem C7_store_insert_no_upsert (res k : String) (cache : Bool) (IT : J → J) (db : DB)
    (id : RId) (d : J) (r : Row)
    (hL : getFirstRow db res k "local" (stringifyId id) = some r) :
    (storeOp res k cache IT db id d).2
        = Except.error "UNIQUE constraint failed: resources" ∧
    getFirstRow (storeOp res k cache IT db id d).1 res k "local" (stringifyId id)
        = some r :=
  storeOp_dup res k cache IT db id d r hL

/-- Witness for the amended C7 on a concrete store with caching enabled. -/
theorem C7_store_insert_no_upsert_witness :
    (storeOp "r" "k" true (fun x => x)
        [{ resource := "r", key := "k", target := "local", id := "1", data := some (J.num 4) }]
        (RId.num 1) (J.num 9)).2
        = Except.error "UNIQUE constraint failed: resources" ∧
    getFirstRow (storeOp "r" "k" true (fun x => x)
        [{ resource := "r", key := "k", target := "local", id := "1", data := some (J.num 4) }]
        (RId.num 1) (J.num 9)).1 "r" "k" "local" (stringifyId (RId.num 1))
        = some { resource := "r", key := "k", target := "local", id := "1",
                 data := some (J.num 4) } :=
  C7_store_insert_no_upsert "r" "k" true (fun x => x)
    [{ resource := "r", key := "k", target := "local", id := "1", data := some (J.num 4) }]
    (RId.num 1) (J.num 9) _ rfl

/-- Structural (deep) equality of two parameter objects: each holds exactly the
fields of the other, regardless of construction order. -/
def structEqParams (a b : Fields) : Prop :=
  (∀ kv ∈ a, lookupField kv.1 b = some kv.2) ∧ (∀ kv ∈ b, lookupField kv.1 a = some kv.2)

instance (a b : Fields) : Decidable (structEqParams a b) := by
  unfold structEqParams
  infer_instance

/-- C8 counterexample: two structurally equal parameter objects built in different key
orders encode to different scope keys, so the scope encoding is not determined by
structural equality alone. -/
theorem C8_counterexample :
    structEqParams [("a", J.num 1), ("b", J.num 2)] [("b", J.num 2), ("a", J.num 1)] ∧
    encodeScope (some (J.obj [("a", J.num 1), ("b", J.num 2)]))
      ≠ encodeScope (some (J.obj [("b", J.num 2), ("a", J.num 1)])) := by
  decide

/-- C8 amended: the scope encoding is determined by the ordered field sequence: two
parameter objects with the same keys in the same enumeration order and the same
values encode to the identical scope-key string (by the counterexample, structurally
equal objects with different key orders may encode differently). -/
theorem C8_encode_scope_same_order (a b : Fields)
    (hnd : (a.map Prod.fst).Nodup)
    (hkeys : a.map Prod.fst = b.map Prod.fst)
    (hvals : ∀ kv ∈ a, lookupField kv.1 b = some kv.2) :
    encodeScope (some (J.obj a)) = encodeScope (some (J.obj b)) := by
  rw [fields_eq_of_same_order a b hnd hkeys hvals]

/-- Witness for the amended C8 on two concrete parameter objects with equal key
order. -/
theorem C8_encode_scope_same_order_witness :
    encodeScope (some (J.obj [("a", J.num 1), ("b", J.num 2)]))
      = encodeScope (some (J.obj [("a", J.num 1), ("b", J.num 2)])) :=
  C8_encode_scope_same_order [("a", J.num 1), ("b", J.num 2)]
    [("a", J.num 1), ("b", J.num 2)] (by decide) (by decide) (by decide)

/-- C9: scope isolation — every mutating operation of the adapter (store, update,
destroy, sync and the batch variants) run against one resource/scope leaves the rows
of every other resource or scope exactly as they were. -/
theorem C9_scope_isolation (res k : String) (cache : Bool) (T IT : J → J) :
    (∀ (db : DB) (id : RId) (d : J),
        otherScopeRows res k (storeOp res k cache IT db id d).1 = otherScopeRows res k db) ∧
    (∀ (db : DB) (items : List (RId × J)),
        otherScopeRows res k (batchStore res k cache IT db items).1
          = otherScopeRows res k db) ∧
    (∀ (db : DB) (id : RId) (patch : J),
        otherScopeRows res k (updateOp res k cache T IT db id patch).1
          = otherScopeRows res k db) ∧
    (∀ (db : DB) (items : List (RId × J)),
        otherScopeRows res k (batchUpdate res k cache T IT db items).1
          = otherScopeRows res k db) ∧
    (∀ (db : DB) (id : RId),
        otherScopeRows res k (destroyOp res k cache db id).1 = otherScopeRows res k db) ∧
    (∀ (db : DB) (ids : List RId),
        otherScopeRows res k (batchDestroy res k cache db ids).1 = otherScopeRows res k db) ∧
    (∀ (db : DB) (ids : List RId),
        otherScopeRows res k (syncOp res k db ids).1 = otherScopeRows res k db) :=
  ⟨fun db id d => otherScopeRows_storeOp res k cache IT db id d,
   fun db items => otherScopeRows_batchStore res k cache IT items db,
   fun db id patch => otherScopeRows_updateOp res k cache T IT db id patch,
   fun db items => otherScopeRows_batchUpdate res k cache T IT items db,
   fun db id => otherScopeRows_destroyOp res k cache db id,
   fun db ids => otherScopeRows_batchDestroy res k cache ids db,
   fun db ids => otherScopeRows_syncOp res k db ids⟩

/-- C10: sync with an empty id list is not a no-op: the placeholder list is empty, so
the generated DELETE contains an empty IN () list, the statement is rejected as
malformed before executing, and the store is unchanged while the caller sees an
error. -/
theorem C10_sync_empty_ids (res k : String) (db : DB) :
    syncSql 0 = "DELETE FROM resources WHERE resource = ? AND key = ? AND target = \x27remote\x27 AND id IN ()" ∧
    (syncOp res k db []).1 = db ∧
    (∃ e, (syncOp res k db []).2 = Except.error e) :=
  ⟨rfl, rfl, ⟨"near the empty IN list: malformed statement", rfl⟩⟩

end ResourceSqlite
